import Mathlib

/-!
Shallow embedding of the report-actions pagination view (`ReportActionsView`)
and the text-input padding lookup of the App repository.

The embedding follows the source component: the reactive inputs and the
mutable refs/state of the component are gathered into a `ViewState` record;
each callback (`loadOlderChats`, `loadNewerChats`, the network-change effect,
the render function) becomes a pure function from that record to the list of
network requests it issues plus the state updates it performs.  The merged
action sequence (`getCombinedReportActionsForDisplay`, an external library
function) enters the state as an abstract input, exactly as the component
receives it.
-/

namespace App

/-- A report action: identifier, creation timestamp (sortable string),
action-kind tag, and optional pending-state tag
(`pendingAction` of the Onyx `ReportAction` type). -/
structure ReportAction where
  reportActionID : String
  created : String
  actionName : String
  pendingAction : Option String
  deriving Repr, DecidableEq

/-- A report: identifier and the last-visible-action timestamp. -/
structure Report where
  reportID : String
  lastVisibleActionCreated : String
  deriving Repr, DecidableEq

/-- `CONST.REPORT.ACTIONS.TYPE.CREATED`: the distinguished
"report created" action kind. -/
def CREATED : String := "CREATED"

/-- `CONST.RED_BRICK_ROAD_PENDING_ACTION.DELETE`. -/
def DELETE : String := "delete"

/-- `DIFF_BETWEEN_SCREEN_HEIGHT_AND_LIST` from the source. -/
def DIFF_BETWEEN_SCREEN_HEIGHT_AND_LIST : Int := 120

/-- `SPACER` from the source. -/
def SPACER : Int := 16

/-- A network/store request issued by the component
(`Report.openReport`, `Report.reconnect`, `Report.getOlderActions`,
`Report.getNewerActions`). -/
inductive Request where
  | openReport (reportID : String) (reportActionID : Option String)
  | reconnect (reportID : String)
  | getOlderActions (reportID : String) (reportActionID : String)
  | getNewerActions (reportID : String) (reportActionID : String)
  deriving Repr, DecidableEq

/-- The reactive inputs, props, refs and state of `ReportActionsView`
at one render.  `combinedReportActions` is the output of the external
`ReportActionsUtils.getCombinedReportActionsForDisplay` collaborator;
`shouldFetchReport` the external `shouldFetchReport(report)` predicate;
`isReportFullyVisible` the external `getIsReportFullyVisible(isFocused)`;
`paginationSize` the imported `getInitialPaginationSize` constant. -/
structure ViewState where
  report : Report
  transactionThreadReport : Option Report
  allReportActions : List ReportAction
  combinedReportActions : List ReportAction
  isLoadingInitialReportActions : Bool
  isLoadingOlderReportActions : Bool
  isLoadingNewerReportActions : Bool
  isReadyForCommentLinking : Bool
  isOffline : Bool
  reportActionID : Option String
  currentReportActionID : String
  isFirstLinkedActionRender : Bool
  isNavigatingToLinkedMessage : Bool
  windowHeight : Int
  contentListHeight : Int
  shouldFetchReport : Bool
  isReportFullyVisible : Bool
  paginationSize : Nat
  deriving Repr, DecidableEq

/-- `isLoading = (!!reportActionID && isLoadingInitialReportActions) || !isReadyForCommentLinking`. -/
def isLoading (s : ViewState) : Bool :=
  (s.reportActionID.isSome && s.isLoadingInitialReportActions) || !s.isReadyForCommentLinking

/-- `indexOfLinkedAction`: `-1` when there is no deep-link target or the view
is loading; otherwise the index in the merged sequence of the original
deep-link identifier (on first linked render) or of the advancing current
pointer (afterwards), `-1` when not found. -/
def indexOfLinkedAction (s : ViewState) : Int :=
  match s.reportActionID with
  | none => -1
  | some rid =>
    if isLoading s then -1
    else
      let target := if s.isFirstLinkedActionRender then rid else s.currentReportActionID
      match s.combinedReportActions.findIdx? (fun a => a.reportActionID == target) with
      | none => -1
      | some i => (i : Int)

/-- The window selector (`reportActions` memo): full merged sequence when no
deep-link target; empty while loading or when the anchor is not found;
on first linked render the suffix from the anchor; afterwards the suffix
starting `paginationSize` entries before the anchor, clamped to `0`. -/
def reportActions (s : ViewState) : List ReportAction :=
  match s.reportActionID with
  | none => s.combinedReportActions
  | some _ =>
    if isLoading s || indexOfLinkedAction s == -1 then []
    else if s.isFirstLinkedActionRender then
      s.combinedReportActions.drop (indexOfLinkedAction s).toNat
    else
      s.combinedReportActions.drop (max (indexOfLinkedAction s - (s.paginationSize : Int)) 0).toNat

/-- One entry of `reportActionIDMap`: a window action's identifier and the
report it is attributed to (`reportID` when the identifier occurs in the
primary collection, else the transaction thread report's identifier, which
may be absent). -/
structure ActionIDMapEntry where
  reportActionID : String
  reportID : Option String
  deriving Repr, DecidableEq

/-- `reportActionIDMap`: attributes each window action to its owning report. -/
def reportActionIDMap (s : ViewState) : List ActionIDMapEntry :=
  let reportActionIDs := s.allReportActions.map (fun a => a.reportActionID)
  (reportActions s).map (fun a =>
    { reportActionID := a.reportActionID,
      reportID := if reportActionIDs.contains a.reportActionID then some s.report.reportID
                  else s.transactionThreadReport.map (fun r => r.reportID) })

/-- `Array.prototype.findLast`: last element satisfying the predicate. -/
def findLastEntry (p : α → Bool) (l : List α) : Option α :=
  l.reverse.find? p

/-- `hasMoreCached = reportActions.length < combinedReportActions.length`. -/
def hasMoreCached (s : ViewState) : Bool :=
  (reportActions s).length < s.combinedReportActions.length

/-- `newestReportAction = reportActions?.[0]`. -/
def newestReportAction (s : ViewState) : Option ReportAction :=
  (reportActions s).head?

/-- `oldestReportAction = reportActions?.at(-1)`. -/
def oldestReportAction (s : ViewState) : Option ReportAction :=
  (reportActions s).getLast?

/-- `hasNewestReportAction`: the window's newest entry's `created` equals the
report's `lastVisibleActionCreated`, or equals the transaction thread
report's (the second JavaScript comparison is `undefined === undefined`,
hence `true`, when the window is empty and no thread report is attached). -/
def hasNewestReportAction (s : ViewState) : Bool :=
  ((newestReportAction s).map (fun a => a.created) == some s.report.lastVisibleActionCreated) ||
  ((newestReportAction s).map (fun a => a.created) ==
    (s.transactionThreadReport.map (fun r => r.lastVisibleActionCreated)))

/-- `hasCreatedAction = oldestReportAction?.actionName === CONST.REPORT.ACTIONS.TYPE.CREATED`. -/
def hasCreatedAction (s : ViewState) : Bool :=
  ((oldestReportAction s).map (fun a => a.actionName)) == some CREATED

/-- `checkIfContentSmallerThanList`. -/
def checkIfContentSmallerThanList (s : ViewState) : Bool :=
  s.windowHeight - DIFF_BETWEEN_SCREEN_HEIGHT_AND_LIST - SPACER > s.contentListHeight

/-- `openReportIfNecessary`: no request unless `shouldFetchReport(report)`. -/
def openReportIfNecessary (s : ViewState) : List Request :=
  if !s.shouldFetchReport then []
  else [Request.openReport s.report.reportID s.reportActionID]

/-- `reconnectReportIfNecessary`: no request unless `shouldFetchReport(report)`. -/
def reconnectReportIfNecessary (s : ViewState) : List Request :=
  if !s.shouldFetchReport then []
  else [Request.reconnect s.report.reportID]

/-- The offline→online effect body: when the network transitions from offline
to online, open the report if it is fully visible, otherwise reconnect. -/
def networkChangeRequests (prevIsOffline : Bool) (s : ViewState) : List Request :=
  if prevIsOffline && !s.isOffline then
    if s.isReportFullyVisible then openReportIfNecessary s
    else reconnectReportIfNecessary s
  else []

/-- `loadOlderChats`: guarded by offline / older- or initial-fetch in flight,
then by a missing oldest entry or the "report created" marker; with a
transaction thread report attached it issues two `getNewerActions` requests
anchored at each report's own oldest held action (`findLast` over
`reportActionIDMap`), otherwise one `getOlderActions` request anchored at
the window's oldest action. -/
def loadOlderChats (s : ViewState) : List Request :=
  if s.isOffline || s.isLoadingOlderReportActions || s.isLoadingInitialReportActions then []
  else match oldestReportAction s with
  | none => []
  | some oldest =>
    if hasCreatedAction s then []
    else match s.transactionThreadReport with
    | some ttr =>
      let oldestActionCurrentReport :=
        findLastEntry (fun item => item.reportID == some s.report.reportID) (reportActionIDMap s)
      let oldestActionTransactionThreadReport :=
        findLastEntry (fun item => item.reportID == some ttr.reportID) (reportActionIDMap s)
      [Request.getNewerActions
          ((oldestActionCurrentReport.bind (fun item => item.reportID)).getD "0")
          ((oldestActionCurrentReport.map (fun item => item.reportActionID)).getD "0"),
       Request.getNewerActions
          ((oldestActionTransactionThreadReport.bind (fun item => item.reportID)).getD "0")
          ((oldestActionTransactionThreadReport.map (fun item => item.reportActionID)).getD "0")]
    | none => [Request.getOlderActions s.report.reportID oldest.reportActionID]

/-- `fetchNewerAction`: guarded by newer- or initial-fetch in flight; with a
transaction thread report it issues two `getNewerActions` requests anchored
at each report's own newest held action (`find` over `reportActionIDMap`),
otherwise one anchored at the given newest action. -/
def fetchNewerAction (s : ViewState) (newest : ReportAction) : List Request :=
  if s.isLoadingNewerReportActions || s.isLoadingInitialReportActions then []
  else match s.transactionThreadReport with
  | some ttr =>
    let newestActionCurrentReport :=
      (reportActionIDMap s).find? (fun item => item.reportID == some s.report.reportID)
    let newestActionTransactionThreadReport :=
      (reportActionIDMap s).find? (fun item => item.reportID == some ttr.reportID)
    [Request.getNewerActions
        ((newestActionCurrentReport.bind (fun item => item.reportID)).getD "0")
        ((newestActionCurrentReport.map (fun item => item.reportActionID)).getD "0"),
     Request.getNewerActions
        ((newestActionTransactionThreadReport.bind (fun item => item.reportID)).getD "0")
        ((newestActionTransactionThreadReport.map (fun item => item.reportActionID)).getD "0")]
  | none => [Request.getNewerActions s.report.reportID newest.reportActionID]

/-- The observable outcome of `loadNewerChats` / `handleReportActionPagination`:
the requests issued, the `setCurrentReportActionID` call (if any), and the
value of the `isFirstLinkedActionRender` ref afterwards. -/
structure LoadNewerOutcome where
  requests : List Request
  setCurrentReportActionID : Option String
  isFirstLinkedActionRender : Bool
  deriving Repr, DecidableEq

/-- `handleReportActionPagination`: when the window is not fully cached it
clears the first-linked-render flag and fetches newer actions; in every case
it clears the flag and advances the current pointer to the given identifier. -/
def handleReportActionPagination (s : ViewState) (newest : ReportAction) : LoadNewerOutcome :=
  { requests := if !hasMoreCached s then fetchNewerAction s newest else [],
    setCurrentReportActionID := some newest.reportActionID,
    isFirstLinkedActionRender := false }

/-- `loadNewerChats`: early return while an initial or older fetch is in
flight or offline; then reads `newestReportAction.pendingAction`, which has
no value (`none` outcome) when the window is empty; suppressed when the
newest action is pending delete, when the window already holds the newest
known action, or when older-content loading takes priority
(content smaller than the list and more than 23 entries held). -/
def loadNewerChats (s : ViewState) : Option LoadNewerOutcome :=
  if s.isLoadingInitialReportActions || s.isLoadingOlderReportActions || s.isOffline then
    some { requests := [], setCurrentReportActionID := none,
           isFirstLinkedActionRender := s.isFirstLinkedActionRender }
  else match (reportActions s).head? with
  | none => none
  | some newest =>
    if newest.pendingAction == some DELETE then
      some { requests := [], setCurrentReportActionID := none,
             isFirstLinkedActionRender := s.isFirstLinkedActionRender }
    else
      -- `isLoadingOlderReportsFirstNeeded` of the source, inlined at both uses
      if (s.reportActionID.isSome && indexOfLinkedAction s > -1 &&
            !hasNewestReportAction s &&
            !(checkIfContentSmallerThanList s && (reportActions s).length > 23)) ||
         (s.reportActionID.isNone && !hasNewestReportAction s &&
            !(checkIfContentSmallerThanList s && (reportActions s).length > 23)) then
        some (handleReportActionPagination s newest)
      else
        some { requests := [], setCurrentReportActionID := none,
               isFirstLinkedActionRender := s.isFirstLinkedActionRender }

/-- The requests actually issued by a `loadNewerChats` call (none when the
call crashes on the undefined newest-entry access). -/
def newerRequests (s : ViewState) : List Request :=
  match loadNewerChats s with
  | none => []
  | some o => o.requests

/-- The newest held action is marked pending delete. -/
def newestPendingDelete (s : ViewState) : Bool :=
  match (reportActions s).head? with
  | none => false
  | some a => a.pendingAction == some DELETE

/-- What the component hands to the list when it renders. -/
structure RenderedList where
  reportActions : List ReportAction
  shouldEnableAutoScrollToTopThreshold : Bool
  deriving Repr, DecidableEq

/-- `shouldEnableAutoScroll = hasNewestReportAction && (!reportActionID || !isNavigatingToLinkedMessage)`. -/
def shouldEnableAutoScroll (s : ViewState) : Bool :=
  hasNewestReportAction s && (s.reportActionID.isNone || !s.isNavigatingToLinkedMessage)

/-- The component's render: nothing (and hence no `loadOlderChats` /
`loadNewerChats` callbacks exposed) while the window is empty, otherwise the
window together with the auto-scroll flag. -/
def renderReportActionsView (s : ViewState) : Option RenderedList :=
  if (reportActions s).length = 0 then none
  else some { reportActions := reportActions s,
              shouldEnableAutoScrollToTopThreshold := shouldEnableAutoScroll s }

/-- `CONST.POLICY.ROOM_PREFIX`, the policy room prefix character (the constant
lives in the external `CONST` module; its value is irrelevant to the lookup's
error behaviour). -/
def policyRoomPrefixChar : String := "#"

/-- `getCharacterPadding` from `BaseTextInput`: padding for the policy room
prefix character, a developer-facing error naming the input otherwise. -/
def getCharacterPadding (c : String) : Except String Nat :=
  if c = policyRoomPrefixChar then Except.ok 10
  else Except.error ("Prefix " ++ c ++ " has no padding assigned.")

/-! Concrete states used to instantiate the theorems below. -/

/-- Newest action of the sample report. -/
def aN : ReportAction :=
  { reportActionID := "aN", created := "2024-03", actionName := "ADDCOMMENT", pendingAction := none }

/-- Middle action of the sample report; deep-link target in the examples. -/
def aT : ReportAction :=
  { reportActionID := "aT", created := "2024-02", actionName := "ADDCOMMENT", pendingAction := none }

/-- Oldest action of the sample report. -/
def aO : ReportAction :=
  { reportActionID := "aO", created := "2024-01", actionName := "ADDCOMMENT", pendingAction := none }

/-- An action belonging to the sample transaction thread report. -/
def b1 : ReportAction :=
  { reportActionID := "b1", created := "2024-02-15", actionName := "ADDCOMMENT", pendingAction := none }

/-- The sample transaction thread report. -/
def r2 : Report := { reportID := "r2", lastVisibleActionCreated := "2024-02-15" }

/-- A quiescent online state of the view: three held actions, no deep-link
target, no fetch in flight, window already at the newest known action. -/
def baseState : ViewState :=
  { report := { reportID := "r1", lastVisibleActionCreated := "2024-03" },
    transactionThreadReport := none,
    allReportActions := [aN, aT, aO],
    combinedReportActions := [aN, aT, aO],
    isLoadingInitialReportActions := false,
    isLoadingOlderReportActions := false,
    isLoadingNewerReportActions := false,
    isReadyForCommentLinking := true,
    isOffline := false,
    reportActionID := none,
    currentReportActionID := "",
    isFirstLinkedActionRender := true,
    isNavigatingToLinkedMessage := false,
    windowHeight := 800,
    contentListHeight := 1000,
    shouldFetchReport := true,
    isReportFullyVisible := true,
    paginationSize := 15 }

/-- `baseState` with the sample transaction thread report attached and its
action `b1` interleaved into the merged sequence. -/
def threadState : ViewState :=
  { baseState with
    transactionThreadReport := some r2,
    combinedReportActions := [aN, b1, aT, aO] }

/-- `baseState` deep-linked to `aT`, on the first linked render. -/
def linkedState : ViewState := { baseState with reportActionID := some "aT" }

/-- `linkedState` on a subsequent render, current pointer at `aT`,
pagination budget 1. -/
def linkedLaterState : ViewState :=
  { linkedState with
    isFirstLinkedActionRender := false,
    currentReportActionID := "aT",
    paginationSize := 1 }

/-- `baseState` for a report that the external predicate says not to fetch. -/
def noFetchState : ViewState := { baseState with shouldFetchReport := false }

/-- `baseState` with an empty store: the window is empty. -/
def emptyState : ViewState :=
  { baseState with allReportActions := [], combinedReportActions := [] }

/-- Twenty-four distinct sample actions, newest first. -/
def manyActions : List ReportAction :=
  (List.range 24).map (fun n =>
    { reportActionID := toString n, created := toString (100 - n),
      actionName := "ADDCOMMENT", pendingAction := none })

/-- A state whose rendered content is smaller than the viewport while the
window holds 24 entries and the newest known action has not been reached. -/
def smallContentState : ViewState :=
  { baseState with
    report := { reportID := "r1", lastVisibleActionCreated := "2099" },
    allReportActions := manyActions,
    combinedReportActions := manyActions,
    contentListHeight := 100 }

/-! ## Theorems -/

/-- C3: `loadOlderChats` issues no request when the client is offline, or an
older or initial fetch is in flight, or the window's oldest entry is the
"report created" action — the last regardless of network state. -/
theorem loadOlderChats_guard_no_request (s : ViewState)
    (h : s.isOffline = true ∨ s.isLoadingOlderReportActions = true ∨
         s.isLoadingInitialReportActions = true ∨ hasCreatedAction s = true) :
    loadOlderChats s = [] := by
  unfold loadOlderChats
  rcases h with h | h | h | h
  · simp [h]
  · simp [h]
  · simp [h]
  · split
    · rfl
    · cases ho : oldestReportAction s
      · rfl
      · simp [h]

/-- Closed witness for C3: an offline state with the "report created" marker
absent still issues no older-fetch request. -/
theorem loadOlderChats_guard_no_request_witness :
    loadOlderChats { baseState with isOffline := true } = [] :=
  loadOlderChats_guard_no_request { baseState with isOffline := true } (Or.inl rfl)

/-- C1 (code evaluated at the failing input): with the transaction thread
report attached and every guard passing, `loadOlderChats` issues two
`getNewerActions` requests — pages FOLLOWING the anchors — anchored at each
report's own oldest held action (`aO` for the report, `b1` for the thread),
not `getOlderActions` requests for the pages preceding them. -/
theorem loadOlderChats_thread_issues_getNewerActions :
    loadOlderChats threadState =
      [Request.getNewerActions "r1" "aO", Request.getNewerActions "r2" "b1"] ∧
    threadState.isOffline = false ∧
    threadState.isLoadingOlderReportActions = false ∧
    threadState.isLoadingInitialReportActions = false ∧
    hasCreatedAction threadState = false ∧
    threadState.transactionThreadReport = some r2 := by
  refine ⟨by decide, rfl, rfl, rfl, by decide, rfl⟩

/-- C8: the prefix-character padding lookup errors, naming the input, on every
input other than the policy room prefix, and returns the assigned padding on
the policy room prefix. -/
theorem getCharacterPadding_total_spec (c : String) (h : c ≠ policyRoomPrefixChar) :
    getCharacterPadding c = Except.error ("Prefix " ++ c ++ " has no padding assigned.") ∧
    getCharacterPadding policyRoomPrefixChar = Except.ok 10 := by
  constructor
  · unfold getCharacterPadding
    simp [h]
  · rfl

/-- Closed witness for C8 at the unmapped input `"@"`. -/
theorem getCharacterPadding_total_spec_witness :
    getCharacterPadding "@" = Except.error "Prefix @ has no padding assigned." ∧
    getCharacterPadding policyRoomPrefixChar = Except.ok 10 :=
  getCharacterPadding_total_spec "@" (by decide)

/-- C7 counterexample: at an offline→online transition with the screen fully
visible, when the external `shouldFetchReport` predicate denies fetching,
zero open-report calls are issued — not exactly one as claimed. -/
theorem network_online_no_openReport_when_shouldFetchReport_false :
    networkChangeRequests true noFetchState = [] ∧
    noFetchState.isReportFullyVisible = true ∧
    noFetchState.isOffline = false := by
  refine ⟨by decide, rfl, rfl⟩

/-- C7 (amended): at an offline→online transition, provided the external
`shouldFetchReport` predicate allows fetching, exactly one open-report call
and zero reconnect calls are issued when the screen is fully visible, and
exactly one reconnect call otherwise. -/
theorem network_online_requests (s : ViewState)
    (honline : s.isOffline = false) (hfetch : s.shouldFetchReport = true) :
    (s.isReportFullyVisible = true →
      networkChangeRequests true s = [Request.openReport s.report.reportID s.reportActionID]) ∧
    (s.isReportFullyVisible = false →
      networkChangeRequests true s = [Request.reconnect s.report.reportID]) := by
  unfold networkChangeRequests openReportIfNecessary reconnectReportIfNecessary
  constructor
  · intro hvis
    simp [honline, hfetch, hvis]
  · intro hvis
    simp [honline, hfetch, hvis]

/-- Closed witness for C7 (amended): on `baseState`, the transition issues
exactly the single open-report call. -/
theorem network_online_requests_witness :
    networkChangeRequests true baseState = [Request.openReport "r1" none] :=
  (network_online_requests baseState rfl rfl).1 rfl

/-- C9: the newer-fetch entry point reads the newest entry's pending-state
field, which has no value on an empty window (whenever the short-circuiting
guards before the access pass), so `loadNewerChats` is well-defined only on a
non-empty window; the component maintains the precondition by rendering
nothing — exposing no callbacks — on an empty window, while `loadOlderChats`
explicitly guards the missing oldest entry and stays defined, issuing
nothing. -/
theorem loadNewerChats_requires_nonempty_window (s : ViewState)
    (hempty : reportActions s = []) :
    (s.isLoadingInitialReportActions = false → s.isLoadingOlderReportActions = false →
      s.isOffline = false → loadNewerChats s = none) ∧
    renderReportActionsView s = none ∧
    loadOlderChats s = [] := by
  refine ⟨?_, ?_, ?_⟩
  · intro h1 h2 h3
    unfold loadNewerChats
    simp [h1, h2, h3, hempty]
  · unfold renderReportActionsView
    simp [hempty]
  · unfold loadOlderChats
    split
    · rfl
    · have : oldestReportAction s = none := by
        unfold oldestReportAction
        simp [hempty]
      simp [this]

/-- Closed witness for C9 on the empty-store state. -/
theorem loadNewerChats_requires_nonempty_window_witness :
    loadNewerChats emptyState = none ∧
    renderReportActionsView emptyState = none ∧
    loadOlderChats emptyState = [] :=
  ⟨(loadNewerChats_requires_nonempty_window emptyState rfl).1 rfl rfl rfl,
   (loadNewerChats_requires_nonempty_window emptyState rfl).2.1,
   (loadNewerChats_requires_nonempty_window emptyState rfl).2.2⟩

/-- C10: in every rendered state, the auto-scroll flag handed to the list is
enabled only if the window has reached the newest known action, in addition
to the settled-navigation / no-deep-link condition. -/
theorem autoscroll_only_when_newest_reached (s : ViewState) (r : RenderedList)
    (hr : renderReportActionsView s = some r)
    (ha : r.shouldEnableAutoScrollToTopThreshold = true) :
    hasNewestReportAction s = true ∧
    (s.reportActionID = none ∨ s.isNavigatingToLinkedMessage = false) := by
  unfold renderReportActionsView at hr
  split at hr
  · exact absurd hr (by simp)
  · have hflag : r.shouldEnableAutoScrollToTopThreshold = shouldEnableAutoScroll s := by
      cases hr
      rfl
    rw [hflag] at ha
    unfold shouldEnableAutoScroll at ha
    simp only [Bool.and_eq_true, Bool.or_eq_true, Option.isNone_iff_eq_none,
      Bool.not_eq_true'] at ha
    exact ⟨ha.1, ha.2⟩

/-- Closed witness for C10 on `baseState`, which renders with auto-scroll
enabled. -/
theorem autoscroll_only_when_newest_reached_witness :
    hasNewestReportAction baseState = true ∧
    (baseState.reportActionID = none ∨ baseState.isNavigatingToLinkedMessage = false) :=
  autoscroll_only_when_newest_reached baseState
    { reportActions := [aN, aT, aO], shouldEnableAutoScrollToTopThreshold := true }
    (by decide) rfl

/-- C2: `loadNewerChats` issues no request while any fetch (initial, older,
or newer) is in flight, or offline, or the newest held action is marked
pending delete, or the newest held entry's creation timestamp equals the
report's (or the transaction thread report's) last-visible-action
timestamp. -/
theorem loadNewerChats_guard_no_request (s : ViewState)
    (h : s.isLoadingInitialReportActions = true ∨ s.isLoadingOlderReportActions = true ∨
         s.isLoadingNewerReportActions = true ∨ s.isOffline = true ∨
         newestPendingDelete s = true ∨ hasNewestReportAction s = true) :
    newerRequests s = [] := by
  unfold newerRequests
  cases hl : loadNewerChats s with
  | none => rfl
  | some o =>
    unfold loadNewerChats at hl
    split at hl
    · cases hl
      rfl
    · next hguard =>
      have hInit : s.isLoadingInitialReportActions = false := by
        cases hb : s.isLoadingInitialReportActions
        · rfl
        · simp [hb] at hguard
      have hOlder : s.isLoadingOlderReportActions = false := by
        cases hb : s.isLoadingOlderReportActions
        · rfl
        · simp [hb] at hguard
      have hOff : s.isOffline = false := by
        cases hb : s.isOffline
        · rfl
        · simp [hb] at hguard
      split at hl
      · cases hl
      · next newest hhead =>
        split at hl
        · cases hl
          rfl
        · next hpend =>
          split at hl
          · next hcond =>
            cases hl
            rcases h with h | h | h | h | h | h
            · simp [h] at hInit
            · simp [h] at hOlder
            · have hfetch : fetchNewerAction s newest = [] := by
                unfold fetchNewerAction
                simp [h]
              simp [handleReportActionPagination, hfetch]
            · simp [h] at hOff
            · unfold newestPendingDelete at h
              rw [hhead] at h
              exact absurd h hpend
            · rw [h] at hcond
              simp at hcond
          · cases hl
            rfl

/-- Closed witness for C2: an offline state issues no newer-fetch request. -/
theorem loadNewerChats_guard_no_request_witness :
    newerRequests { baseState with isOffline := true } = [] :=
  loadNewerChats_guard_no_request { baseState with isOffline := true }
    (Or.inr (Or.inr (Or.inr (Or.inl rfl))))

/-- C4 counterexample: deep-linked to `aT` on first render, the window is
`[aT, aO]`: it contains `aO`, whose creation timestamp is OLDER than the
target's, and excludes the newest entry `aN` — not "from the target to the
newest entry, never including entries older than the target". -/
theorem firstRender_window_contains_older_entries :
    reportActions linkedState = [aT, aO] ∧
    aO ∈ reportActions linkedState ∧ aO.created < aT.created ∧
    aN ∉ reportActions linkedState ∧ aT.created < aN.created := by
  refine ⟨by decide, by decide, ?_, by decide, ?_⟩
  · rw [String.lt_iff_toList_lt]
    decide
  · rw [String.lt_iff_toList_lt]
    decide

/-- C4 (amended): with the first-render flag set and the loading/readiness
guards passing, when the deep-link target occurs at position `i` of the
merged newest-first sequence, the window selector returns exactly the suffix
of the merged sequence starting at `i` — everything from the target to the
OLDEST entry, never shorter and never including entries newer than the
target. -/
theorem firstRender_window_is_target_suffix (s : ViewState) (rid : String) (i : Nat)
    (hrid : s.reportActionID = some rid)
    (hload : isLoading s = false)
    (hfirst : s.isFirstLinkedActionRender = true)
    (hidx : s.combinedReportActions.findIdx? (fun a => a.reportActionID == rid) = some i) :
    reportActions s = s.combinedReportActions.drop i := by
  have hi : indexOfLinkedAction s = (i : Int) := by
    unfold indexOfLinkedAction
    rw [hrid]
    simp [hload, hfirst, hidx]
  have hne : (indexOfLinkedAction s == -1) = false := by
    rw [hi, beq_eq_false_iff_ne]
    omega
  unfold reportActions
  rw [hrid]
  simp [hload, hne, hfirst, hi]

/-- Closed witness for C4 (amended) on `linkedState`, whose target `aT` sits
at position 1 of the merged sequence. -/
theorem firstRender_window_is_target_suffix_witness :
    reportActions linkedState = linkedState.combinedReportActions.drop 1 :=
  firstRender_window_is_target_suffix linkedState "aT" 1 rfl rfl rfl (by decide)

/-- C5: with the first-render flag false and the current pointer found at
position `i` of the merged sequence, the window selector returns the suffix
starting at index `max (i - paginationSize) 0` — clamped to the start of the
sequence. -/
theorem laterRender_window_buffered_suffix (s : ViewState) (rid : String) (i : Nat)
    (hrid : s.reportActionID = some rid)
    (hload : isLoading s = false)
    (hfirst : s.isFirstLinkedActionRender = false)
    (hidx : s.combinedReportActions.findIdx?
      (fun a => a.reportActionID == s.currentReportActionID) = some i) :
    reportActions s =
      s.combinedReportActions.drop (max ((i : Int) - (s.paginationSize : Int)) 0).toNat := by
  have hi : indexOfLinkedAction s = (i : Int) := by
    unfold indexOfLinkedAction
    rw [hrid]
    simp [hload, hfirst, hidx]
  have hne : (indexOfLinkedAction s == -1) = false := by
    rw [hi, beq_eq_false_iff_ne]
    omega
  unfold reportActions
  rw [hrid]
  simp [hload, hne, hfirst, hi]

/-- Closed witness for C5 on `linkedLaterState`: pointer `aT` at position 1,
pagination budget 1, so the window is the whole merged sequence. -/
theorem laterRender_window_buffered_suffix_witness :
    reportActions linkedLaterState =
      linkedLaterState.combinedReportActions.drop (max ((1 : Int) - 1) 0).toNat :=
  laterRender_window_buffered_suffix linkedLaterState "aT" 1 rfl rfl rfl (by decide)

/-- C6: whenever the rendered content is smaller than the viewport and the
window holds strictly more than 23 entries, `loadNewerChats` is suppressed:
it issues no request, does not advance the current pointer, and leaves the
first-linked-render flag unchanged. -/
theorem small_content_suppresses_newer_fetch (s : ViewState)
    (hsmall : checkIfContentSmallerThanList s = true)
    (hlen : 23 < (reportActions s).length) :
    loadNewerChats s =
      some { requests := [], setCurrentReportActionID := none,
             isFirstLinkedActionRender := s.isFirstLinkedActionRender } := by
  have hd : decide ((reportActions s).length > 23) = true := decide_eq_true hlen
  unfold loadNewerChats
  split
  · rfl
  · split
    · next hhead =>
      rw [List.head?_eq_none_iff] at hhead
      rw [hhead] at hlen
      simp at hlen
    · split
      · rfl
      · simp [hsmall, hd]

/-- Closed witness for C6 on `smallContentState`: 24 held entries, content
height 100 against a viewport of 800 − 120 − 16. -/
theorem small_content_suppresses_newer_fetch_witness :
    loadNewerChats smallContentState =
      some { requests := [], setCurrentReportActionID := none,
             isFirstLinkedActionRender := true } :=
  small_content_suppresses_newer_fetch smallContentState (by decide) (by decide)

end App
